import Mathlib

/-!
Shallow embedding of the blog backend in src/src/app.ts: two Mongoose models
(User, Post) and ten Express handlers (list, create, get-by-id, update and
delete for each resource). Storage is modelled as an explicit state of the
two collections; each handler is a pure function from state and request to a
response, a new state, and a trace of the storage operations it performed.
Mongoose behaviour that the handlers rely on is modelled explicitly:
id casting (a malformed id raises a CastError, distinct from not-found),
schema validation with trimming, the email pattern and password minimum
length, the unique email index, the select:false projection hiding the
password in query results, timestamps, and populate with a field projection.
-/

namespace Blog

/-- A stored User document (collection `users`), after setters were applied,
per `userSchema` in app.ts: firstName, lastName, email (trimmed, unique,
pattern-checked), password (select:false, minlength 6), isActive
(default true) and the automatic timestamps. -/
structure StUser where
  id : String
  firstName : String
  lastName : String
  email : String
  password : String
  isActive : Bool
  createdAt : Nat
  updatedAt : Nat
deriving Repr, DecidableEq

/-- A stored Post document (collection `posts`), per `postSchema` in app.ts:
title and content (trimmed), userId (an ObjectId reference to a User, not
checked for existence) and the automatic timestamps. -/
structure StPost where
  id : String
  title : String
  content : String
  userId : String
  createdAt : Nat
  updatedAt : Nat
deriving Repr, DecidableEq

/-- The database state: the two collections. -/
structure DB where
  users : List StUser
  posts : List StPost
deriving Repr, DecidableEq

/-- Hexadecimal character, for ObjectId casting. -/
def isHexChar (c : Char) : Bool :=
  c.isDigit || (Char.ofNat 97 ≤ c && c ≤ Char.ofNat 102)
    || (Char.ofNat 65 ≤ c && c ≤ Char.ofNat 70)

/-- An id string that Mongoose can cast to an ObjectId (the canonical
24-character hexadecimal form). A string failing this cast makes findById,
findByIdAndDelete and the userId path raise a CastError. -/
def isValidObjectId (s : String) : Bool :=
  s.length == 24 && s.data.all isHexChar

/-- The trim setter of the schemas (trim: true), JavaScript
String.prototype.trim: strip whitespace from both ends. -/
def jsTrim (s : String) : String :=
  ⟨((s.data.dropWhile Char.isWhitespace).reverse.dropWhile Char.isWhitespace).reverse⟩

/-- The email pattern of userSchema: regex caret backslash-S plus at-sign
backslash-S plus dot backslash-S plus dollar, i.e. the whole string is
non-whitespace and splits as local at-sign middle dot rest with all three
parts non-empty. The regex semantics is an existential over the position of
the at-sign and of the dot. -/
def matchesEmailPattern (s : String) : Bool :=
  let cs := s.data
  cs.all (fun c => !c.isWhitespace) &&
  ((List.range cs.length).any (fun i =>
    (List.range cs.length).any (fun j =>
      decide (0 < i) && decide (i + 1 < j) && decide (j + 1 < cs.length) &&
      (cs.getD i ' ' == '@') && (cs.getD j ' ' == '.'))))

/-- Errors raised by the storage layer (Mongoose / MongoDB): a CastError for
a malformed id, a ValidationError from schema validation, and the duplicate
key error from the unique email index. All of them reach the generic catch
of the handlers and become HTTP 500. -/
inductive DbError where
  | castError
  | validationError (m : String)
  | duplicateKey
deriving Repr, DecidableEq

/-- The error text carried into the 500 response body (error.message in the
handlers). The exact wording of Mongoose messages is abbreviated. -/
def DbError.message : DbError → String
  | .castError => "Cast to ObjectId failed"
  | .validationError m => m
  | .duplicateKey => "E11000 duplicate key error"

/-- One storage operation, recorded in the order the handler performs it. -/
inductive StorageOp where
  | findAllUsers
  | findOneUserByEmail (email : String)
  | insertUserOp (u : StUser)
  | findUserByIdOp (id : String)
  | saveUserOp (u : StUser)
  | findByIdAndDeleteUserOp (id : String)
  | findAllPosts
  | insertPostOp (p : StPost)
  | findPostByIdOp (id : String)
  | savePostOp (p : StPost)
  | findByIdAndDeletePostOp (id : String)
  | populateOp (userId : String)
  | populateManyOp (userIds : List String)
deriving Repr, DecidableEq

/-- A User as serialized in query results (find, findById, and a findById
document echoed after save): the password path has select:false, so it is
absent. -/
structure UserView where
  id : String
  firstName : String
  lastName : String
  email : String
  isActive : Bool
  createdAt : Nat
  updatedAt : Nat
deriving Repr, DecidableEq

def UserView.ofStored (u : StUser) : UserView :=
  { id := u.id, firstName := u.firstName, lastName := u.lastName,
    email := u.email, isActive := u.isActive,
    createdAt := u.createdAt, updatedAt := u.updatedAt }

/-- The projection of a referenced User produced by
populate with field list firstName lastName email (the id is always kept
by Mongoose alongside an explicit projection). -/
structure UserRef where
  id : String
  firstName : String
  lastName : String
  email : String
deriving Repr, DecidableEq

def UserRef.ofStored (u : StUser) : UserRef :=
  { id := u.id, firstName := u.firstName, lastName := u.lastName,
    email := u.email }

/-- A Post as serialized after populate: the raw userId is replaced by the
projected referenced User, or null (none) when the reference does not
resolve. -/
structure PostView where
  id : String
  title : String
  content : String
  user : Option UserRef
  createdAt : Nat
  updatedAt : Nat
deriving Repr, DecidableEq

/-- Response bodies produced by the handlers. err is a body of shape
open-brace error colon text close-brace, msg of shape open-brace message
colon text close-brace; user bodies from query paths omit the password,
while the create path returns the freshly built document, which still
carries the password (select:false only applies to queries). -/
inductive RespBody where
  | err (e : String)
  | msg (m : String)
  | user (u : UserView)
  | userWithPassword (u : StUser)
  | users (us : List UserView)
  | post (p : PostView)
  | posts (ps : List PostView)
deriving Repr, DecidableEq

structure Response where
  status : Nat
  body : RespBody
deriving Repr, DecidableEq

/-- Result of one handler invocation: the HTTP response, the database state
afterwards, and the storage operations performed, in order. -/
structure HOut where
  resp : Response
  db : DB
  trace : List StorageOp
deriving Repr, DecidableEq

/-- JavaScript truthiness of a possibly-absent string field, as used by the
presence checks (bang-negation): absent and the empty string are falsy,
every other string is truthy. -/
def present : Option String → Bool
  | none => false
  | some s => !s.isEmpty

/-- A create/update User request body: the handler destructures exactly
firstName, lastName, email, password, isActive; any extra members are kept
here only to state that they are ignored. -/
structure UserBody where
  firstName : Option String := none
  lastName : Option String := none
  email : Option String := none
  password : Option String := none
  isActive : Option Bool := none
  extra : List (String × String) := []
deriving Repr, DecidableEq

/-- A create/update Post request body: the handler destructures exactly
title, content, userId. -/
structure PostBody where
  title : Option String := none
  content : Option String := none
  userId : Option String := none
  extra : List (String × String) := []
deriving Repr, DecidableEq

/-- Schema validation of a User document on insert (User.create): required
paths must be non-empty after trimming, the email must match the pattern,
and the password must have at least 6 characters. The first failing message
is reported. -/
def validateUserInsert (u : StUser) : Except DbError Unit :=
  if u.firstName.isEmpty then .error (.validationError "First name is required")
  else if u.lastName.isEmpty then .error (.validationError "Last name is required")
  else if u.email.isEmpty then .error (.validationError "Email is required")
  else if !matchesEmailPattern u.email then .error (.validationError "Email is not valid")
  else if u.password.isEmpty then .error (.validationError "Password is required")
  else if u.password.length < 6 then
    .error (.validationError "Password must be at least 6 characters long")
  else .ok ()

/-- Schema validation on save of a document loaded by a query: the password
path was not selected (select:false), so Mongoose skips its validators; the
other paths are validated as on insert. -/
def validateUserSave (u : StUser) : Except DbError Unit :=
  if u.firstName.isEmpty then .error (.validationError "First name is required")
  else if u.lastName.isEmpty then .error (.validationError "Last name is required")
  else if u.email.isEmpty then .error (.validationError "Email is required")
  else if !matchesEmailPattern u.email then .error (.validationError "Email is not valid")
  else .ok ()

/-- User.findOne with an email filter: first stored user with that exact
email, or none. A plain string filter needs no id cast. -/
def findUserByEmail (db : DB) (email : String) : Option StUser :=
  db.users.find? (fun u => u.email == email)

/-- User.findById: casts the id first (CastError on failure), then returns
the record or a not-found signal (none). -/
def findUserById (db : DB) (id : String) : Except DbError (Option StUser) :=
  if isValidObjectId id then .ok (db.users.find? (fun u => u.id == id))
  else .error .castError

/-- Insertion of a validated User document, enforcing the unique index on
email (duplicate key error on collision). -/
def insertUser (db : DB) (u : StUser) : Except DbError DB :=
  match validateUserInsert u with
  | .error e => .error e
  | .ok _ =>
    if db.users.any (fun v => v.email == u.email) then .error .duplicateKey
    else .ok { db with users := db.users ++ [u] }

/-- document.save on a User loaded by findById. Mongoose tracks modified
paths: assigning a value equal to the stored one marks nothing modified, and
when no path is modified save validates but then skips both the timestamp
refresh and the write entirely (a no-op). Otherwise the timestamps hook
refreshes updatedAt and the modified paths are written; the unique email
index is only consulted when the email path is among the written ones.
Validation runs in every case (validateBeforeSave), the password path
excepted, for it was not selected. orig is the stored document, upd the
document after the assignments; the new state and the document as persisted
are returned. -/
def saveUser (db : DB) (orig upd : StUser) (now : Nat) :
    Except DbError (DB × StUser) :=
  match validateUserSave upd with
  | .error e => .error e
  | .ok _ =>
    if upd = orig then .ok (db, orig)
    else if upd.email ≠ orig.email ∧
        db.users.any (fun v => v.id != orig.id && v.email == upd.email) = true then
      .error .duplicateKey
    else
      let saved : StUser := { upd with updatedAt := now }
      .ok ({ db with users := db.users.map (fun v => if v.id == orig.id then saved else v) },
        saved)

/-- User.findByIdAndDelete: one storage call that casts the id, removes the
matching record if any, and reports the removed record (none when nothing
was deleted). -/
def findByIdAndDeleteUser (db : DB) (id : String) :
    Except DbError (Option StUser × DB) :=
  if isValidObjectId id then
    match db.users.find? (fun u => u.id == id) with
    | none => .ok (none, db)
    | some u => .ok (some u, { db with users := db.users.filter (fun v => v.id != id) })
  else .error .castError

/-- Post.findById, as for Users. -/
def findPostById (db : DB) (id : String) : Except DbError (Option StPost) :=
  if isValidObjectId id then .ok (db.posts.find? (fun p => p.id == id))
  else .error .castError

/-- Schema validation plus userId cast on insert of a Post (Post.create).
The userId path has type ObjectId, so a malformed value fails the cast; no
check that the referenced User exists is performed. -/
def validatePostDoc (p : StPost) : Except DbError Unit :=
  if !isValidObjectId p.userId then
    .error (.validationError "Cast to ObjectId failed at path userId")
  else if p.title.isEmpty then .error (.validationError "Title is required")
  else if p.content.isEmpty then .error (.validationError "Content is required")
  else .ok ()

def insertPost (db : DB) (p : StPost) : Except DbError DB :=
  match validatePostDoc p with
  | .error e => .error e
  | .ok _ => .ok { db with posts := db.posts ++ [p] }

/-- document.save on a Post: same validation and the same modified-path
tracking as for Users; when no assigned value differs from the stored one,
save is a no-op and updatedAt is not refreshed. -/
def savePost (db : DB) (orig upd : StPost) (now : Nat) :
    Except DbError (DB × StPost) :=
  match validatePostDoc upd with
  | .error e => .error e
  | .ok _ =>
    if upd = orig then .ok (db, orig)
    else
      let saved : StPost := { upd with updatedAt := now }
      .ok ({ db with posts := db.posts.map (fun q => if q.id == orig.id then saved else q) },
        saved)

/-- Post.findByIdAndDelete, as for Users. -/
def findByIdAndDeletePost (db : DB) (id : String) :
    Except DbError (Option StPost × DB) :=
  if isValidObjectId id then
    match db.posts.find? (fun p => p.id == id) with
    | none => .ok (none, db)
    | some p => .ok (some p, { db with posts := db.posts.filter (fun q => q.id != id) })
  else .error .castError

/-- populate of the userId path with projection firstName lastName email:
look the referenced User up and substitute its projection, or null (none)
when the reference does not resolve. -/
def populatePost (db : DB) (p : StPost) : PostView :=
  { id := p.id, title := p.title, content := p.content,
    user := (db.users.find? (fun u => u.id == p.userId)).map UserRef.ofStored,
    createdAt := p.createdAt, updatedAt := p.updatedAt }

/-! ## The ten handlers (app.ts lines 89 to 269) -/

/-- GET /users (getUsers, app.ts 89): User.find, serialized without the
password, status 200. -/
def getUsers (db : DB) : HOut :=
  { resp := { status := 200, body := .users (db.users.map UserView.ofStored) },
    db := db, trace := [.findAllUsers] }

/-- POST /users (createUser, app.ts 102): presence check on the four
required fields, then a findOne duplicate-email read, then User.create.
The created document is echoed, password included. newId is the ObjectId
generated for the document and now the timestamp. -/
def createUser (db : DB) (body : UserBody) (newId : String) (now : Nat) : HOut :=
  if !(present body.firstName && present body.lastName &&
       present body.email && present body.password) then
    { resp := { status := 400,
                body := .err "firstName, lastName, email, and password are required" },
      db := db, trace := [] }
  else
    let email := body.email.getD ""
    match findUserByEmail db email with
    | some _ =>
      { resp := { status := 400, body := .err "User already exists" },
        db := db, trace := [.findOneUserByEmail email] }
    | none =>
      let u : StUser :=
        { id := newId,
          firstName := jsTrim (body.firstName.getD ""),
          lastName := jsTrim (body.lastName.getD ""),
          email := jsTrim email,
          password := body.password.getD "",
          isActive := body.isActive.getD true,
          createdAt := now, updatedAt := now }
      match insertUser db u with
      | .error e =>
        { resp := { status := 500, body := .msg e.message },
          db := db, trace := [.findOneUserByEmail email, .insertUserOp u] }
      | .ok db2 =>
        { resp := { status := 200, body := .userWithPassword u },
          db := db2, trace := [.findOneUserByEmail email, .insertUserOp u] }

/-- GET /users/:id (getUserById, app.ts 120): findById; 404 when absent,
500 when the id cast fails, otherwise the record without the password. -/
def getUserById (db : DB) (id : String) : HOut :=
  match findUserById db id with
  | .error e =>
    { resp := { status := 500, body := .msg e.message },
      db := db, trace := [.findUserByIdOp id] }
  | .ok none =>
    { resp := { status := 404, body := .err "User not found" },
      db := db, trace := [.findUserByIdOp id] }
  | .ok (some u) =>
    { resp := { status := 200, body := .user (UserView.ofStored u) },
      db := db, trace := [.findUserByIdOp id] }

/-- PUT /users/:id (updateUser, app.ts 137): presence check on firstName,
lastName, email; findById (404 when absent); assign exactly those three
paths (trim setters apply) and save, which refreshes updatedAt and writes
only when some assigned value differs from the stored one. -/
def updateUser (db : DB) (id : String) (body : UserBody) (now : Nat) : HOut :=
  if !(present body.firstName && present body.lastName && present body.email) then
    { resp := { status := 400,
                body := .err "firstName, lastName, and email are required" },
      db := db, trace := [] }
  else
    match findUserById db id with
    | .error e =>
      { resp := { status := 500, body := .msg e.message },
        db := db, trace := [.findUserByIdOp id] }
    | .ok none =>
      { resp := { status := 404, body := .err "User not found" },
        db := db, trace := [.findUserByIdOp id] }
    | .ok (some u) =>
      let u2 : StUser :=
        { u with firstName := jsTrim (body.firstName.getD ""),
                 lastName := jsTrim (body.lastName.getD ""),
                 email := jsTrim (body.email.getD "") }
      match saveUser db u u2 now with
      | .error e =>
        { resp := { status := 500, body := .msg e.message },
          db := db, trace := [.findUserByIdOp id, .saveUserOp u2] }
      | .ok (db2, saved) =>
        { resp := { status := 200, body := .user (UserView.ofStored saved) },
          db := db2, trace := [.findUserByIdOp id, .saveUserOp u2] }

/-- DELETE /users/:id (deleteUser, app.ts 162): one findByIdAndDelete call;
404 when nothing was deleted, else a User deleted message. -/
def deleteUser (db : DB) (id : String) : HOut :=
  match findByIdAndDeleteUser db id with
  | .error e =>
    { resp := { status := 500, body := .msg e.message },
      db := db, trace := [.findByIdAndDeleteUserOp id] }
  | .ok (none, db2) =>
    { resp := { status := 404, body := .err "User not found" },
      db := db2, trace := [.findByIdAndDeleteUserOp id] }
  | .ok (some _, db2) =>
    { resp := { status := 200, body := .msg "User deleted" },
      db := db2, trace := [.findByIdAndDeleteUserOp id] }

/-- GET /posts (getPosts, app.ts 179): Post.find with populate of userId
projected to firstName lastName email. -/
def getPosts (db : DB) : HOut :=
  { resp := { status := 200, body := .posts (db.posts.map (populatePost db)) },
    db := db,
    trace := [.findAllPosts, .populateManyOp (db.posts.map (fun p => p.userId))] }

/-- POST /posts (createPost, app.ts 192): presence check on title, content,
userId; Post.create (userId cast to ObjectId, no existence check); the
created Post is echoed populated. -/
def createPost (db : DB) (body : PostBody) (newId : String) (now : Nat) : HOut :=
  if !(present body.title && present body.content && present body.userId) then
    { resp := { status := 400, body := .err "title, content, and userId are required" },
      db := db, trace := [] }
  else
    let p : StPost :=
      { id := newId,
        title := jsTrim (body.title.getD ""),
        content := jsTrim (body.content.getD ""),
        userId := body.userId.getD "",
        createdAt := now, updatedAt := now }
    match insertPost db p with
    | .error e =>
      { resp := { status := 500, body := .msg e.message },
        db := db, trace := [.insertPostOp p] }
    | .ok db2 =>
      { resp := { status := 200, body := .post (populatePost db2 p) },
        db := db2, trace := [.insertPostOp p, .populateOp p.userId] }

/-- GET /posts/:id (getPostById, app.ts 209): findById with populate; 404
when absent, 500 when the id cast fails. -/
def getPostById (db : DB) (id : String) : HOut :=
  match findPostById db id with
  | .error e =>
    { resp := { status := 500, body := .msg e.message },
      db := db, trace := [.findPostByIdOp id] }
  | .ok none =>
    { resp := { status := 404, body := .err "Post not found" },
      db := db, trace := [.findPostByIdOp id] }
  | .ok (some p) =>
    { resp := { status := 200, body := .post (populatePost db p) },
      db := db, trace := [.findPostByIdOp id, .populateOp p.userId] }

/-- PUT /posts/:id (updatePost, app.ts 226): presence check on title,
content, userId; findById (404 when absent); assign those three paths,
save, echo populated. -/
def updatePost (db : DB) (id : String) (body : PostBody) (now : Nat) : HOut :=
  if !(present body.title && present body.content && present body.userId) then
    { resp := { status := 400, body := .err "title, content, and userId are required" },
      db := db, trace := [] }
  else
    match findPostById db id with
    | .error e =>
      { resp := { status := 500, body := .msg e.message },
        db := db, trace := [.findPostByIdOp id] }
    | .ok none =>
      { resp := { status := 404, body := .err "Post not found" },
        db := db, trace := [.findPostByIdOp id] }
    | .ok (some p) =>
      let p2 : StPost :=
        { p with title := jsTrim (body.title.getD ""),
                 content := jsTrim (body.content.getD ""),
                 userId := body.userId.getD "" }
      match savePost db p p2 now with
      | .error e =>
        { resp := { status := 500, body := .msg e.message },
          db := db, trace := [.findPostByIdOp id, .savePostOp p2] }
      | .ok (db2, saved) =>
        { resp := { status := 200, body := .post (populatePost db2 saved) },
          db := db2, trace := [.findPostByIdOp id, .savePostOp p2, .populateOp saved.userId] }

/-- DELETE /posts/:id (deletePost, app.ts 254): one findByIdAndDelete call;
404 when nothing was deleted, else a Post deleted message. -/
def deletePost (db : DB) (id : String) : HOut :=
  match findByIdAndDeletePost db id with
  | .error e =>
    { resp := { status := 500, body := .msg e.message },
      db := db, trace := [.findByIdAndDeletePostOp id] }
  | .ok (none, db2) =>
    { resp := { status := 404, body := .err "Post not found" },
      db := db2, trace := [.findByIdAndDeletePostOp id] }
  | .ok (some _, db2) =>
    { resp := { status := 200, body := .msg "Post deleted" },
      db := db2, trace := [.findByIdAndDeletePostOp id] }

end Blog

namespace Blog

/-! ## Concrete sample data for witnesses and counterexamples -/

def sampleUid : String := "aaaaaaaaaaaaaaaaaaaaaaaa"

def sampleUid2 : String := "bbbbbbbbbbbbbbbbbbbbbbbb"

def samplePid : String := "cccccccccccccccccccccccc"

def sampleUser : StUser :=
  { id := sampleUid, firstName := "Ada", lastName := "Lovelace",
    email := "ada@example.com", password := "secret1", isActive := true,
    createdAt := 0, updatedAt := 0 }

def samplePost : StPost :=
  { id := samplePid, title := "Hello", content := "World",
    userId := sampleUid, createdAt := 0, updatedAt := 0 }

def sampleDb : DB := { users := [sampleUser], posts := [samplePost] }

/-- Helper: looking a User up by id in a list from which every record with
that id was filtered out finds nothing. -/
theorem find?_user_filter_ne (l : List StUser) (id : String) :
    (l.filter (fun v => v.id != id)).find? (fun v => v.id == id) = none := by
  rw [List.find?_eq_none]
  intro a ha
  have := (List.mem_filter.mp ha).2
  simp_all

/-- Helper: the same for Posts. -/
theorem find?_post_filter_ne (l : List StPost) (id : String) :
    (l.filter (fun q => q.id != id)).find? (fun q => q.id == id) = none := by
  rw [List.find?_eq_none]
  intro a ha
  have := (List.mem_filter.mp ha).2
  simp_all

/-- Helper: rewriting every password in a list of Users commutes with
looking a User up by id. -/
theorem find?_by_id_map_set_password (l : List StUser) (f : StUser → String)
    (id : String) :
    (l.map (fun u => { u with password := f u })).find? (fun u => u.id == id)
      = (l.find? (fun u => u.id == id)).map (fun u => { u with password := f u }) := by
  induction l with
  | nil => rfl
  | cons a t ih =>
    by_cases h : (a.id == id) = true
    · simp [List.find?_cons, h]
    · simp only [List.map_cons, List.find?_cons] at *
      simp [h, ih]

end Blog

open Blog

/-- C1: for every create-User request whose body contains all four required
fields, if a User with the same email already exists in storage, the handler
answers 400 with the body error User already exists, does not insert a new
record (the state is unchanged), and the only storage operation performed is
the separate findOne read by email, before any write. -/
theorem createUser_rejects_duplicate_email (db : DB) (body : UserBody)
    (newId : String) (now : Nat) (e : String)
    (hfn : present body.firstName = true) (hln : present body.lastName = true)
    (hem : body.email = some e) (he : e.isEmpty = false)
    (hpw : present body.password = true)
    (hdup : findUserByEmail db e ≠ none) :
    (createUser db body newId now).resp =
      { status := 400, body := .err "User already exists" } ∧
    (createUser db body newId now).db = db ∧
    (createUser db body newId now).trace = [.findOneUserByEmail e] := by
  rcases hu : findUserByEmail db e with _ | u
  · exact absurd hu hdup
  · have hfe : present (some e) = true := by simp [present, he]
    simp [createUser, hem, hu, hfn, hln, hpw, hfe]

/-- C1 witness: the duplicate-email rejection at a concrete state holding a
User with the email of the request. -/
theorem createUser_rejects_duplicate_email_witness :
    (createUser sampleDb
      { firstName := some "Bob", lastName := some "B",
        email := some "ada@example.com", password := some "hunter2" }
      sampleUid2 3).resp = { status := 400, body := .err "User already exists" } ∧
    (createUser sampleDb
      { firstName := some "Bob", lastName := some "B",
        email := some "ada@example.com", password := some "hunter2" }
      sampleUid2 3).db = sampleDb ∧
    (createUser sampleDb
      { firstName := some "Bob", lastName := some "B",
        email := some "ada@example.com", password := some "hunter2" }
      sampleUid2 3).trace = [.findOneUserByEmail "ada@example.com"] :=
  createUser_rejects_duplicate_email sampleDb _ sampleUid2 3 "ada@example.com"
    (by decide) (by decide) rfl (by decide) (by decide) (by decide)

/-- C2 counterexample: a create-Post request with title, content and userId
all present, whose userId (the string abc) is not castable to an ObjectId,
does not succeed: the storage layer raises a cast failure, the handler
answers 500 and no Post is inserted. This refutes the claim read literally,
which asserts success for every such request. -/
theorem createPost_malformed_userId_fails :
    (createPost { users := [], posts := [] }
      { title := some "t", content := some "c", userId := some "abc" }
      samplePid 5).resp.status = 500 ∧
    (createPost { users := [], posts := [] }
      { title := some "t", content := some "c", userId := some "abc" }
      samplePid 5).db = { users := [], posts := [] } := by
  constructor <;> rfl

/-- C2 amended: for every create-Post request with title and content present
and non-empty after trimming, and userId a well-formed (castable) id,
creation succeeds with status 200 even when userId does not correspond to
any existing User: no referential-existence check is performed, the Post is
stored as given, and in the populated read paths (the creation echo and a
later get-by-id) the userId field resolves to null (none) rather than an
error. -/
theorem createPost_dangling_userId_succeeds (db : DB) (body : PostBody)
    (newId : String) (now : Nat) (t c uid : String)
    (ht : body.title = some t) (ht1 : t.isEmpty = false)
    (ht2 : (jsTrim t).isEmpty = false)
    (hc : body.content = some c) (hc1 : c.isEmpty = false)
    (hc2 : (jsTrim c).isEmpty = false)
    (hu : body.userId = some uid) (hu1 : uid.isEmpty = false)
    (hu2 : isValidObjectId uid = true)
    (hnew : isValidObjectId newId = true)
    (hdangling : db.users.find? (fun u => u.id == uid) = none)
    (hfresh : db.posts.find? (fun p => p.id == newId) = none) :
    (createPost db body newId now).resp =
      { status := 200,
        body := .post { id := newId, title := jsTrim t, content := jsTrim c,
                        user := none, createdAt := now, updatedAt := now } } ∧
    (createPost db body newId now).db.posts =
      db.posts ++ [{ id := newId, title := jsTrim t, content := jsTrim c,
                     userId := uid, createdAt := now, updatedAt := now }] ∧
    (getPostById (createPost db body newId now).db newId).resp =
      { status := 200,
        body := .post { id := newId, title := jsTrim t, content := jsTrim c,
                        user := none, createdAt := now, updatedAt := now } } := by
  have hpt : present (some t) = true := by simp [present, ht1]
  have hpc : present (some c) = true := by simp [present, hc1]
  have hpu : present (some uid) = true := by simp [present, hu1]
  simp [createPost, ht, hc, hu, hpt, hpc, hpu, insertPost, validatePostDoc, hu2,
    ht2, hc2, populatePost, hdangling, getPostById, findPostById, hnew,
    List.find?_append, hfresh]

/-- C2 witness: creating a Post whose userId is a well-formed id that no
stored User carries succeeds and reads back with a null populated user. -/
theorem createPost_dangling_userId_succeeds_witness :
    (createPost { users := [], posts := [] }
      { title := some "t", content := some "c", userId := some sampleUid }
      samplePid 5).resp =
      { status := 200,
        body := .post { id := samplePid, title := "t", content := "c",
                        user := none, createdAt := 5, updatedAt := 5 } } ∧
    (createPost { users := [], posts := [] }
      { title := some "t", content := some "c", userId := some sampleUid }
      samplePid 5).db.posts =
      [{ id := samplePid, title := "t", content := "c",
         userId := sampleUid, createdAt := 5, updatedAt := 5 }] ∧
    (getPostById (createPost { users := [], posts := [] }
      { title := some "t", content := some "c", userId := some sampleUid }
      samplePid 5).db samplePid).resp =
      { status := 200,
        body := .post { id := samplePid, title := "t", content := "c",
                        user := none, createdAt := 5, updatedAt := 5 } } := by
  have h := createPost_dangling_userId_succeeds { users := [], posts := [] }
    { title := some "t", content := some "c", userId := some sampleUid }
    samplePid 5 "t" "c" sampleUid rfl (by decide) (by decide) rfl (by decide)
    (by decide) rfl (by decide) (by decide) (by decide) (by decide) (by decide)
  simpa using h

/-- C3 counterexample: an update-User request on an existing id with all
three editable fields present and acceptable to storage, whose values
differ from the stored ones, succeeds, yet the stored record does not keep
every other field unchanged: the save path refreshes the updatedAt
timestamp (0 becomes 7 here). This refutes the claim read literally. -/
theorem updateUser_changes_updatedAt :
    (updateUser sampleDb sampleUid
      { firstName := some "Grace", lastName := some "Hopper",
        email := some "grace@example.com" } 7).resp.status = 200 ∧
    sampleDb.users.map (fun u => u.updatedAt) = [0] ∧
    ((updateUser sampleDb sampleUid
      { firstName := some "Grace", lastName := some "Hopper",
        email := some "grace@example.com" } 7).db.users.map (fun u => u.updatedAt)) = [7] := by
  refine ⟨rfl, rfl, ?_⟩
  rfl

/-- C3 amended: for every update-User request on an existing id with
firstName, lastName and email present in the body and acceptable to storage
validation (trimmed values non-empty, trimmed email matching the schema
pattern and not held by any other user): when at least one assigned trimmed
value differs from the stored one, the handler overwrites exactly those
three fields with the trimmed body values, refreshes updatedAt, and
persists, while password, isActive, createdAt and the id are unchanged and
the Posts collection is untouched; when every assigned value equals the
stored one, save marks no path modified and is a no-op, so the state is
fully unchanged and the record is echoed as stored; in both cases any extra
fields in the request body are ignored. -/
theorem updateUser_overwrites_exactly_editable_fields (db : DB) (id : String)
    (body : UserBody) (now : Nat) (u : StUser) (fn ln em : String)
    (hid : isValidObjectId id = true)
    (hfind : db.users.find? (fun v => v.id == id) = some u)
    (hfn : body.firstName = some fn) (hfn1 : fn.isEmpty = false)
    (hfn2 : (jsTrim fn).isEmpty = false)
    (hln : body.lastName = some ln) (hln1 : ln.isEmpty = false)
    (hln2 : (jsTrim ln).isEmpty = false)
    (hem : body.email = some em) (hem1 : em.isEmpty = false)
    (hem2 : (jsTrim em).isEmpty = false)
    (hem3 : matchesEmailPattern (jsTrim em) = true)
    (huniq : db.users.any (fun v => v.id != u.id && v.email == jsTrim em) = false) :
    ((jsTrim fn ≠ u.firstName ∨ jsTrim ln ≠ u.lastName ∨ jsTrim em ≠ u.email) →
      (updateUser db id body now).resp =
        { status := 200,
          body := .user { id := u.id, firstName := jsTrim fn, lastName := jsTrim ln,
                          email := jsTrim em, isActive := u.isActive,
                          createdAt := u.createdAt, updatedAt := now } } ∧
      (updateUser db id body now).db.users =
        db.users.map (fun v => if v.id == u.id then
          { u with firstName := jsTrim fn, lastName := jsTrim ln,
                   email := jsTrim em, updatedAt := now } else v) ∧
      (updateUser db id body now).db.posts = db.posts) ∧
    ((jsTrim fn = u.firstName ∧ jsTrim ln = u.lastName ∧ jsTrim em = u.email) →
      (updateUser db id body now).resp =
        { status := 200, body := .user (UserView.ofStored u) } ∧
      (updateUser db id body now).db = db) ∧
    (∀ l, updateUser db id { body with extra := l } now = updateUser db id body now) := by
  have hpf : present (some fn) = true := by simp [present, hfn1]
  have hpl : present (some ln) = true := by simp [present, hln1]
  have hpe : present (some em) = true := by simp [present, hem1]
  refine ⟨fun hmod => ?_, fun hsame => ?_, fun l => rfl⟩
  · have hne : ({ u with firstName := jsTrim fn, lastName := jsTrim ln,
                         email := jsTrim em } : StUser) ≠ u := by
      intro heq
      have h1 := congrArg StUser.firstName heq
      have h2 := congrArg StUser.lastName heq
      have h3 := congrArg StUser.email heq
      rcases hmod with h | h | h
      · exact h h1
      · exact h h2
      · exact h h3
    simp [updateUser, findUserById, hid, hfind, hfn, hln, hem, hpf, hpl, hpe,
      saveUser, validateUserSave, hfn2, hln2, hem2, hem3, huniq, hne,
      UserView.ofStored]
  · rcases hsame with ⟨e1, e2, e3⟩
    have heq : ({ u with firstName := jsTrim fn, lastName := jsTrim ln,
                         email := jsTrim em } : StUser) = u := by
      rw [e1, e2, e3]
    simp [updateUser, findUserById, hid, hfind, hfn, hln, hem, hpf, hpl, hpe,
      saveUser, validateUserSave, hfn2, hln2, hem2, hem3, heq]

/-- C3 witness: a value-changing update at a concrete state overwrites the
three editable fields and refreshes updatedAt while password, isActive and
createdAt are kept, and an update whose values equal the stored ones is a
no-op echoing the stored record. -/
theorem updateUser_overwrites_exactly_editable_fields_witness :
    ((updateUser sampleDb sampleUid
      { firstName := some "Grace", lastName := some "Hopper",
        email := some "grace@example.com" } 7).resp =
      { status := 200,
        body := .user { id := sampleUid, firstName := jsTrim "Grace",
                        lastName := jsTrim "Hopper", email := jsTrim "grace@example.com",
                        isActive := sampleUser.isActive,
                        createdAt := sampleUser.createdAt, updatedAt := 7 } } ∧
     (updateUser sampleDb sampleUid
      { firstName := some "Grace", lastName := some "Hopper",
        email := some "grace@example.com" } 7).db.users =
      sampleDb.users.map (fun v => if v.id == sampleUser.id then
        { sampleUser with firstName := jsTrim "Grace", lastName := jsTrim "Hopper",
                          email := jsTrim "grace@example.com", updatedAt := 7 } else v) ∧
     (updateUser sampleDb sampleUid
      { firstName := some "Grace", lastName := some "Hopper",
        email := some "grace@example.com" } 7).db.posts = sampleDb.posts) ∧
    ((updateUser sampleDb sampleUid
      { firstName := some "Ada", lastName := some "Lovelace",
        email := some "ada@example.com" } 7).resp =
      { status := 200, body := .user (UserView.ofStored sampleUser) } ∧
     (updateUser sampleDb sampleUid
      { firstName := some "Ada", lastName := some "Lovelace",
        email := some "ada@example.com" } 7).db = sampleDb) :=
  ⟨(updateUser_overwrites_exactly_editable_fields sampleDb sampleUid
      { firstName := some "Grace", lastName := some "Hopper",
        email := some "grace@example.com" } 7 sampleUser "Grace" "Hopper"
      "grace@example.com" (by decide) (by decide) rfl (by decide) (by decide)
      rfl (by decide) (by decide) rfl (by decide) (by decide) (by decide)
      (by decide)).1 (Or.inl (by decide)),
   (updateUser_overwrites_exactly_editable_fields sampleDb sampleUid
      { firstName := some "Ada", lastName := some "Lovelace",
        email := some "ada@example.com" } 7 sampleUser "Ada" "Lovelace"
      "ada@example.com" (by decide) (by decide) rfl (by decide) (by decide)
      rfl (by decide) (by decide) rfl (by decide) (by decide) (by decide)
      (by decide)).2.1 (by decide)⟩

/-- C4: for every well-formed id, the delete handlers perform exactly one
find-and-delete storage call; when the record exists the first call removes
it and answers 200 with the message that the resource was deleted, and a
second delete of the same id answers 404 because nothing was deleted. Both
the User and the Post variant are covered. -/
theorem delete_single_call_then_404 (db : DB) (id : String)
    (hid : isValidObjectId id = true) :
    ((db.users.find? (fun u => u.id == id)).isSome = true →
      (deleteUser db id).resp = { status := 200, body := .msg "User deleted" } ∧
      (deleteUser db id).trace = [.findByIdAndDeleteUserOp id] ∧
      (deleteUser db id).db.users.find? (fun u => u.id == id) = none ∧
      (deleteUser (deleteUser db id).db id).resp =
        { status := 404, body := .err "User not found" } ∧
      (deleteUser (deleteUser db id).db id).trace = [.findByIdAndDeleteUserOp id]) ∧
    ((db.posts.find? (fun p => p.id == id)).isSome = true →
      (deletePost db id).resp = { status := 200, body := .msg "Post deleted" } ∧
      (deletePost db id).trace = [.findByIdAndDeletePostOp id] ∧
      (deletePost db id).db.posts.find? (fun p => p.id == id) = none ∧
      (deletePost (deletePost db id).db id).resp =
        { status := 404, body := .err "Post not found" } ∧
      (deletePost (deletePost db id).db id).trace = [.findByIdAndDeletePostOp id]) := by
  constructor
  · intro hsome
    rcases hfind : db.users.find? (fun u => u.id == id) with _ | u
    · rw [hfind] at hsome; simp at hsome
    · have h2 := find?_user_filter_ne db.users id
      simp [deleteUser, findByIdAndDeleteUser, hid, hfind, h2]
  · intro hsome
    rcases hfind : db.posts.find? (fun p => p.id == id) with _ | p
    · rw [hfind] at hsome; simp at hsome
    · have h2 := find?_post_filter_ne db.posts id
      simp [deletePost, findByIdAndDeletePost, hid, hfind, h2]

/-- C4 witness: double deletion of a concrete User and a concrete Post. -/
theorem delete_single_call_then_404_witness :
    ((deleteUser sampleDb sampleUid).resp = { status := 200, body := .msg "User deleted" } ∧
      (deleteUser sampleDb sampleUid).trace = [.findByIdAndDeleteUserOp sampleUid] ∧
      (deleteUser sampleDb sampleUid).db.users.find? (fun u => u.id == sampleUid) = none ∧
      (deleteUser (deleteUser sampleDb sampleUid).db sampleUid).resp =
        { status := 404, body := .err "User not found" } ∧
      (deleteUser (deleteUser sampleDb sampleUid).db sampleUid).trace =
        [.findByIdAndDeleteUserOp sampleUid]) ∧
    ((deletePost sampleDb samplePid).resp = { status := 200, body := .msg "Post deleted" } ∧
      (deletePost sampleDb samplePid).trace = [.findByIdAndDeletePostOp samplePid] ∧
      (deletePost sampleDb samplePid).db.posts.find? (fun p => p.id == samplePid) = none ∧
      (deletePost (deletePost sampleDb samplePid).db samplePid).resp =
        { status := 404, body := .err "Post not found" } ∧
      (deletePost (deletePost sampleDb samplePid).db samplePid).trace =
        [.findByIdAndDeletePostOp samplePid]) :=
  ⟨(delete_single_call_then_404 sampleDb sampleUid (by decide)).1 (by decide),
   (delete_single_call_then_404 sampleDb samplePid (by decide)).2 (by decide)⟩

/-- C5: for every stored state, the password field is never returned in
query results: the responses of list-Users and get-User-by-id are unchanged
under any rewriting of the stored password fields, for the password path
has select:false and is omitted from the serialized views. -/
theorem query_results_omit_password (db : DB) (f : StUser → String) (id : String) :
    (getUsers { users := db.users.map (fun u => { u with password := f u }),
                posts := db.posts }).resp = (getUsers db).resp ∧
    (getUserById { users := db.users.map (fun u => { u with password := f u }),
                   posts := db.posts } id).resp = (getUserById db id).resp := by
  constructor
  · simp [getUsers, List.map_map]
    exact fun a _ => rfl
  · unfold getUserById findUserById
    by_cases hid : isValidObjectId id = true
    · simp only [hid, if_true, find?_by_id_map_set_password]
      rcases hfind : db.users.find? (fun u => u.id == id) with _ | u <;> simp [hfind]
      rfl
    · simp only [Bool.not_eq_true] at hid
      simp [hid]

/-- C6: for every create-User request missing at least one of the four
required fields (absent or empty under JavaScript truthiness), the handler
answers 400 with the message naming the required fields and performs no
storage operation at all; and whenever all four fields are present the
request does reach storage (the findOne read happens first), showing only
presence is checked, not email format or password length. -/
theorem createUser_presence_gate (db : DB) (body : UserBody) (newId : String)
    (now : Nat) :
    ((present body.firstName && present body.lastName && present body.email &&
        present body.password) = false →
      (createUser db body newId now).resp =
        { status := 400,
          body := .err "firstName, lastName, email, and password are required" } ∧
      (createUser db body newId now).db = db ∧
      (createUser db body newId now).trace = []) ∧
    ((present body.firstName && present body.lastName && present body.email &&
        present body.password) = true →
      ∃ rest, (createUser db body newId now).trace =
        .findOneUserByEmail (body.email.getD "") :: rest) := by
  constructor
  · intro h
    rcases Bool.and_eq_false_iff.mp h with h1 | h1
    · rcases Bool.and_eq_false_iff.mp h1 with h2 | h2
      · rcases Bool.and_eq_false_iff.mp h2 with h3 | h3 <;> simp [createUser, h3]
      · simp [createUser, h2]
    · simp [createUser, h1]
  · intro h
    simp only [createUser, h, Bool.not_true, Bool.false_eq_true, if_false]
    rcases hf : findUserByEmail db (body.email.getD "") with _ | u
    · simp only [hf]
      rcases hins : insertUser db
        { id := newId, firstName := jsTrim (body.firstName.getD ""),
          lastName := jsTrim (body.lastName.getD ""),
          email := jsTrim (body.email.getD ""), password := body.password.getD "",
          isActive := body.isActive.getD true, createdAt := now, updatedAt := now }
        with e | db2 <;> simp [hins]
    · simp [hf]

/-- C6 witness: a request missing the password is rejected with 400 and an
empty trace, while a request with an invalid-shaped email and a short
password still reaches the storage read. -/
theorem createUser_presence_gate_witness :
    ((createUser sampleDb
        { firstName := some "Bob", lastName := some "B",
          email := some "bob@example.com" } sampleUid2 3).resp =
      { status := 400,
        body := .err "firstName, lastName, email, and password are required" } ∧
     (createUser sampleDb
        { firstName := some "Bob", lastName := some "B",
          email := some "bob@example.com" } sampleUid2 3).db = sampleDb ∧
     (createUser sampleDb
        { firstName := some "Bob", lastName := some "B",
          email := some "bob@example.com" } sampleUid2 3).trace = []) ∧
    (∃ rest, (createUser sampleDb
        { firstName := some "Bob", lastName := some "B",
          email := some "not-an-email", password := some "abc" } sampleUid2 3).trace =
      .findOneUserByEmail "not-an-email" :: rest) :=
  ⟨(createUser_presence_gate sampleDb
      { firstName := some "Bob", lastName := some "B",
        email := some "bob@example.com" } sampleUid2 3).1 (by decide),
   (createUser_presence_gate sampleDb
      { firstName := some "Bob", lastName := some "B",
        email := some "not-an-email", password := some "abc" } sampleUid2 3).2 (by decide)⟩

/-- C7: for every well-formed id that does not resolve to a stored record,
get-User-by-id answers 404 with the User not found error and
get-Post-by-id answers 404 with the Post not found error, leaving the state
unchanged; and when the Post exists, it is returned with its userId
populated (the referenced User projected to firstName, lastName and email,
or null when the reference does not resolve). -/
theorem getById_absent_404_present_populated (db : DB) (id : String)
    (hid : isValidObjectId id = true) :
    (db.users.find? (fun u => u.id == id) = none →
      (getUserById db id).resp = { status := 404, body := .err "User not found" } ∧
      (getUserById db id).db = db) ∧
    (db.posts.find? (fun p => p.id == id) = none →
      (getPostById db id).resp = { status := 404, body := .err "Post not found" } ∧
      (getPostById db id).db = db) ∧
    (∀ p, db.posts.find? (fun q => q.id == id) = some p →
      (getPostById db id).resp =
        { status := 200,
          body := .post { id := p.id, title := p.title, content := p.content,
                          user := (db.users.find? (fun u => u.id == p.userId)).map
                            (fun u => { id := u.id, firstName := u.firstName,
                                        lastName := u.lastName, email := u.email }),
                          createdAt := p.createdAt, updatedAt := p.updatedAt } }) := by
  refine ⟨fun h => ?_, fun h => ?_, fun p h => ?_⟩
  · simp [getUserById, findUserById, hid, h]
  · simp [getPostById, findPostById, hid, h]
  · simp [getPostById, findPostById, hid, h, populatePost, UserRef.ofStored]
    rfl

/-- C7 witness: a missing User id and a missing Post id answer 404; a
present Post id answers 200 populated. -/
theorem getById_absent_404_present_populated_witness :
    ((getUserById sampleDb sampleUid2).resp =
      { status := 404, body := .err "User not found" } ∧
     (getUserById sampleDb sampleUid2).db = sampleDb) ∧
    ((getPostById sampleDb sampleUid2).resp =
      { status := 404, body := .err "Post not found" } ∧
     (getPostById sampleDb sampleUid2).db = sampleDb) ∧
    ((getPostById sampleDb samplePid).resp =
      { status := 200,
        body := .post { id := samplePost.id, title := samplePost.title,
                        content := samplePost.content,
                        user := (sampleDb.users.find?
                            (fun u => u.id == samplePost.userId)).map
                          (fun u => { id := u.id, firstName := u.firstName,
                                      lastName := u.lastName, email := u.email }),
                        createdAt := samplePost.createdAt,
                        updatedAt := samplePost.updatedAt } }) :=
  ⟨(getById_absent_404_present_populated sampleDb sampleUid2 (by decide)).1 (by decide),
   (getById_absent_404_present_populated sampleDb sampleUid2 (by decide)).2.1 (by decide),
   (getById_absent_404_present_populated sampleDb samplePid (by decide)).2.2
     samplePost (by decide)⟩

/-- C8: for every state of storage, list-Posts answers 200 and returns
every stored Post, in order, with its raw userId replaced by the
firstName-lastName-email projection of the referenced User (the id rides
along, as Mongoose always keeps it), or by null (none) when the referenced
User does not exist; the state is unchanged. -/
theorem getPosts_populates_each (db : DB) :
    (getPosts db).resp.status = 200 ∧
    (getPosts db).resp.body = .posts (db.posts.map (fun p =>
      { id := p.id, title := p.title, content := p.content,
        user := (db.users.find? (fun u => u.id == p.userId)).map
          (fun u => { id := u.id, firstName := u.firstName,
                      lastName := u.lastName, email := u.email }),
        createdAt := p.createdAt, updatedAt := p.updatedAt })) ∧
    (getPosts db).db = db :=
  ⟨rfl, rfl, rfl⟩

/-- C9: for every id of malformed format, the storage lookup fails with the
cast error, which is distinct from the not-found signal, and the handlers
do not treat it specially: both get-by-id variants answer 500 (not 404)
through the generic catch, whose body carries the error message, and the
state is unchanged. -/
theorem malformed_id_propagates_500 (db : DB) (id : String)
    (hid : isValidObjectId id = false) :
    findUserById db id = .error .castError ∧
    findUserById db id ≠ .ok none ∧
    (getUserById db id).resp.status = 500 ∧
    (getUserById db id).resp.status ≠ 404 ∧
    (∃ m, (getUserById db id).resp.body = .msg m) ∧
    (getUserById db id).db = db ∧
    findPostById db id = .error .castError ∧
    (getPostById db id).resp.status = 500 ∧
    (∃ m, (getPostById db id).resp.body = .msg m) ∧
    (getPostById db id).db = db := by
  simp [getUserById, getPostById, findUserById, findPostById, hid]

/-- C9 witness: the malformed id abc makes both get-by-id handlers answer
500 with a message body and leaves the state unchanged. -/
theorem malformed_id_propagates_500_witness :
    findUserById sampleDb "abc" = .error .castError ∧
    findUserById sampleDb "abc" ≠ .ok none ∧
    (getUserById sampleDb "abc").resp.status = 500 ∧
    (getUserById sampleDb "abc").resp.status ≠ 404 ∧
    (∃ m, (getUserById sampleDb "abc").resp.body = .msg m) ∧
    (getUserById sampleDb "abc").db = sampleDb ∧
    findPostById sampleDb "abc" = .error .castError ∧
    (getPostById sampleDb "abc").resp.status = 500 ∧
    (∃ m, (getPostById sampleDb "abc").resp.body = .msg m) ∧
    (getPostById sampleDb "abc").db = sampleDb :=
  malformed_id_propagates_500 sampleDb "abc" (by decide)

/-- C10: in the update handlers of both resources the required-field
presence check runs before the existence lookup: whenever a required
editable field is missing the response is 400 and no storage operation is
performed (the trace is empty and the state unchanged), for every id,
including ids that resolve to no record, so 400 takes precedence over
404. -/
theorem update_presence_before_lookup (db : DB) (id : String)
    (ub : UserBody) (pb : PostBody) (now : Nat) :
    ((present ub.firstName && present ub.lastName && present ub.email) = false →
      (updateUser db id ub now).resp =
        { status := 400, body := .err "firstName, lastName, and email are required" } ∧
      (updateUser db id ub now).db = db ∧
      (updateUser db id ub now).trace = []) ∧
    ((present pb.title && present pb.content && present pb.userId) = false →
      (updatePost db id pb now).resp =
        { status := 400, body := .err "title, content, and userId are required" } ∧
      (updatePost db id pb now).db = db ∧
      (updatePost db id pb now).trace = []) := by
  constructor
  · intro h
    rcases Bool.and_eq_false_iff.mp h with h1 | h1
    · rcases Bool.and_eq_false_iff.mp h1 with h2 | h2 <;> simp [updateUser, h2]
    · simp [updateUser, h1]
  · intro h
    rcases Bool.and_eq_false_iff.mp h with h1 | h1
    · rcases Bool.and_eq_false_iff.mp h1 with h2 | h2 <;> simp [updatePost, h2]
    · simp [updatePost, h1]

/-- C10 witness: update requests carrying only one field are rejected with
400 and an empty trace on an id that resolves to no record. -/
theorem update_presence_before_lookup_witness :
    ((updateUser sampleDb sampleUid2 { firstName := some "X" } 9).resp =
      { status := 400, body := .err "firstName, lastName, and email are required" } ∧
     (updateUser sampleDb sampleUid2 { firstName := some "X" } 9).db = sampleDb ∧
     (updateUser sampleDb sampleUid2 { firstName := some "X" } 9).trace = []) ∧
    ((updatePost sampleDb sampleUid2 { title := some "X" } 9).resp =
      { status := 400, body := .err "title, content, and userId are required" } ∧
     (updatePost sampleDb sampleUid2 { title := some "X" } 9).db = sampleDb ∧
     (updatePost sampleDb sampleUid2 { title := some "X" } 9).trace = []) :=
  ⟨(update_presence_before_lookup sampleDb sampleUid2 { firstName := some "X" }
      { title := some "X" } 9).1 (by decide),
   (update_presence_before_lookup sampleDb sampleUid2 { firstName := some "X" }
      { title := some "X" } 9).2 (by decide)⟩
